import Mathlib

/-
Verification of the zoned-device abstraction layer of dm-zoned-tools
(src/dmz_dev.c) against its natural-language specification.

The C code is shallowly embedded: each dmz_* function below is a direct
translation of the function of the same name in src/dmz_dev.c.  Machine
integers (u64 in the C) are modelled as Nat, with explicit mod 2^64
wherever the C arithmetic can wrap (subtraction and the additions the
code performs on u64 quantities).  Kernel-facing effects (BLKREPORTZONE,
blkid probing, the mount table, sysfs holder scans, stat and open) are
modelled as explicit inputs carried by the device or environment
structures, since the code treats them as external data it must tolerate.
-/

/-- 2 to the 64, the modulus of the u64 arithmetic used throughout the C code. -/
def U64 : Nat := 18446744073709551616

/-- u64 addition as the C performs it, wrapping mod 2 to the 64. -/
def u64add (a b : Nat) : Nat := (a + b) % U64

/-- u64 subtraction as the C performs it: for a b < 2 to the 64 this is
a - b when b is not above a, and wraps otherwise. -/
def u64sub (a b : Nat) : Nat := (a + U64 - b) % U64

/-- u64 multiplication as the C performs it, wrapping mod 2 to the 64. -/
def u64mul (a b : Nat) : Nat := (a * b) % U64

/-- Modelled from the spec: dmz.h (not under src) fixes the metadata block
at 4096 bytes, i.e. 8 sectors of 512 bytes; dmz_blk2sect multiplies by
this ratio (the spec calls it the blocks-per-sector ratio). -/
def dmzBlockSectors : Nat := 8

/-- dmz_blk2sect of dmz.h: convert a block count to a sector count. -/
def dmz_blk2sect (b : Nat) : Nat := b * dmzBlockSectors

/-- One record of struct blk_zone (linux/blkzoned.h) as used by the code:
start, len and wp are sector values, capacity is the usable-sector count
added by report v2 (0 when the running kernel does not report it). -/
structure BlkZone where
  start : Nat
  len : Nat
  wp : Nat
  type : Nat
  cond : Nat
  capacity : Nat
deriving DecidableEq

/-- BLK_ZONE_TYPE_UNKNOWN, the type given to emulated zones. -/
def BLK_ZONE_TYPE_UNKNOWN : Nat := 0

/-- BLK_ZONE_COND_NOT_WP, the condition given to emulated zones. -/
def BLK_ZONE_COND_NOT_WP : Nat := 0

/-- dmz_zone_sector of dmz.h: the start sector of a zone. -/
def dmz_zone_sector (z : BlkZone) : Nat := z.start

/-- dmz_zone_length of dmz.h: the length in sectors of a zone. -/
def dmz_zone_length (z : BlkZone) : Nat := z.len

/-- dmz_zone_capacity (HAVE_BLK_ZONE_REP_V2 variant, src/dmz_dev.c lines
327-338): a capacity field reported as 0 means the running system does
not support zone capacity, in which case the zone length is returned. -/
def dmz_zone_capacity (z : BlkZone) : Nat :=
  if z.capacity = 0 then dmz_zone_length z else z.capacity

/-- The device kinds of dmz.h. -/
inductive DmzBdevType where
  | DMZ_TYPE_REGULAR
  | DMZ_TYPE_ZONED_HA
  | DMZ_TYPE_ZONED_HM
deriving DecidableEq

/-- struct dmz_block_dev: one backend of the composite.  block_offset is
in blocks, capacity in sectors.  The zones field models the zone report
the kernel would serve for this backend (backend-local sectors); it is
the data source of the BLKREPORTZONE calls the builder issues. -/
structure DmzBlockDev where
  block_offset : Nat
  capacity : Nat
  type : DmzBdevType
  nr_zones : Nat
  zones : List BlkZone
deriving DecidableEq

/-- struct dmz_dev: the composite device.  capacity is in sectors. -/
structure DmzDev where
  bdev : List DmzBlockDev
  capacity : Nat
  zone_nr_sectors : Nat
deriving DecidableEq

/-- The descending-index scan shared by dmz_block_to_bdev and
dmz_sector_to_bdev (src/dmz_dev.c lines 37-42 and 57-64): walk the
backend list from the highest index down and return the first backend
whose offset is not above the address, with the backend-local address. -/
def ownerFrom (offs : DmzBlockDev → Nat) : List DmzBlockDev → Nat → Option (DmzBlockDev × Nat)
  | [], _ => none
  | b :: rest, addr =>
    if offs b ≤ addr then some (b, addr - offs b) else ownerFrom offs rest addr

/-- dmz_block_to_bdev (src/dmz_dev.c lines 32-47).  Returns the owning
backend and local block, or none with ret_block set to the all-ones u64
when no backend offset is at or below the block. -/
def dmz_block_to_bdev (dev : DmzDev) (block : Nat) : Option DmzBlockDev × Nat :=
  match ownerFrom (fun b => b.block_offset) dev.bdev.reverse block with
  | some (b, r) => (some b, r)
  | none => (none, U64 - 1)

/-- dmz_sector_to_bdev (src/dmz_dev.c lines 52-69).  Same scan with each
backend offset converted to sectors. -/
def dmz_sector_to_bdev (dev : DmzDev) (sector : Nat) : Option DmzBlockDev × Nat :=
  match ownerFrom (fun b => dmz_blk2sect b.block_offset) dev.bdev.reverse sector with
  | some (b, r) => (some b, r)
  | none => (none, U64 - 1)

/-- Concrete composite for exercising the translators: one regular
backend at offset 0 with 80 sectors (10 blocks) of capacity. -/
def exBdevR1 : DmzBlockDev :=
  { block_offset := 0, capacity := 80, type := DmzBdevType.DMZ_TYPE_REGULAR,
    nr_zones := 10, zones := [] }

/-- Composite holding only exBdevR1; total capacity 80 sectors. -/
def exDev1 : DmzDev := { bdev := [exBdevR1], capacity := 80, zone_nr_sectors := 8 }

/-- State threaded through dmz_get_dev_zones (src/dmz_dev.c lines
351-495): the cursor sector, the running zone count, the zone array
written so far, the C variable ret, and a bookkeeping trace recording
every zone received from a zone-report query before validation, paired
with the capacity of the backend that reported it. -/
structure BuildState where
  sector : Nat
  nr_zones : Nat
  zones : List BlkZone
  ret : Int
  trace : List (Nat × BlkZone)
deriving DecidableEq

/-- The bound on zones per report derived from the 524288-byte buffer
(src/dmz_dev.c lines 346, 377-379), with the linux/blkzoned.h sizes of
16 bytes for the report header and 64 bytes per zone record. -/
def rep_max_zones : Nat := 8191

/-- Model of the BLKREPORTZONE ioctl (src/dmz_dev.c lines 408-422): the
kernel serves, from the zone report held by the backend, the zones not
ending at or before the queried backend-local sector, up to the caller
buffer bound.  The ioctl itself is modelled as always succeeding; its
failure aborts the build in the C and no claim depends on it. -/
def reportZones (bdev : DmzBlockDev) (sector : Nat) : List BlkZone :=
  (bdev.zones.filter (fun z => decide (sector < z.start + z.len))).take rep_max_zones

/-- The per-zone loop of dmz_get_dev_zones (src/dmz_dev.c lines
428-468): validate zone size against the uniform zone size or the
backend capacity, reject a zone whose capacity is smaller than its
length, guard the running index against the computed total, then rebase
start and write pointer by the backend sector offset, store the zone and
advance the cursor to its end.  Returns false paired with the state at
the abort (the C sets ret to -1 and jumps past the final checks). -/
def processBatch (zoneNrSectors devNrZones bdevCapacity sector_offset : Nat) :
    List BlkZone → BuildState → Bool × BuildState
  | [], st => (true, st)
  | blkz :: rest, st =>
    if dmz_zone_length blkz ≠ zoneNrSectors ∧
        u64add (dmz_zone_sector blkz) (dmz_zone_length blkz) ≠ bdevCapacity then
      (false, { st with ret := -1 })
    else if dmz_zone_capacity blkz < dmz_zone_length blkz then
      (false, { st with ret := -1 })
    else if devNrZones ≤ st.nr_zones then
      (false, { st with ret := -1 })
    else
      let z : BlkZone := { blkz with start := u64add blkz.start sector_offset,
                                     wp := u64add blkz.wp sector_offset }
      processBatch zoneNrSectors devNrZones bdevCapacity sector_offset rest
        { st with zones := st.zones ++ [z],
                  nr_zones := st.nr_zones + 1,
                  sector := u64add (dmz_zone_sector z) (dmz_zone_length z) }

/-- The zone emulated for a regular backend (src/dmz_dev.c lines
388-399): it starts at the composite cursor, its length is the uniform
zone size truncated against the comparison of the composite start with
the backend-local capacity exactly as the source writes it on lines
394-395, its write pointer is the all-ones u64, and its capacity field
keeps the 0 of the calloc of the zone array. -/
def regularZone (dev : DmzDev) (bdev : DmzBlockDev) (sector : Nat) : BlkZone :=
  { start := sector,
    len := if bdev.capacity < u64add sector dev.zone_nr_sectors
           then u64sub bdev.capacity sector else dev.zone_nr_sectors,
    wp := U64 - 1,
    type := BLK_ZONE_TYPE_UNKNOWN, cond := BLK_ZONE_COND_NOT_WP, capacity := 0 }

/-- One iteration of the regular-backend arm (src/dmz_dev.c lines
388-404): store the emulated zone, bump the count and advance the
cursor by the uniform zone size (not by the possibly truncated
length). -/
def stepRegular (dev : DmzDev) (bdev : DmzBlockDev) (st : BuildState) : BuildState :=
  { st with zones := st.zones ++ [regularZone dev bdev st.sector],
            nr_zones := st.nr_zones + 1,
            sector := u64add st.sector dev.zone_nr_sectors }

/-- Receipt of a report batch (src/dmz_dev.c lines 409-416): ret takes
the 0 of the successful ioctl and the received zones enter the
bookkeeping trace, before any validation. -/
def stepReport (bdev : DmzBlockDev) (batch : List BlkZone) (st : BuildState) : BuildState :=
  { st with ret := 0, trace := st.trace ++ batch.map (fun z => (bdev.capacity, z)) }

/-- The while loop of dmz_get_dev_zones (src/dmz_dev.c lines 383-470),
with fuel to make the recursion structural.  The first component is true
when the loop exits normally (cursor reached the capacity, or an empty
report broke out) and false when the C jumps to out early.  Return codes
of the model only: -2 marks fuel exhaustion (unreachable with adequate
fuel) and -3 marks the null-pointer dereference the C would perform when
no backend owns the cursor sector. -/
def buildLoop (dev : DmzDev) (devNrZones : Nat) : Nat → BuildState → Bool × BuildState
  | 0, st => (false, { st with ret := -2 })
  | fuel+1, st =>
    if st.sector < dev.capacity then
      match ownerFrom (fun b => dmz_blk2sect b.block_offset) dev.bdev.reverse st.sector with
      | none => (false, { st with ret := -3 })
      | some (bdev, bdev_sector) =>
        if bdev.type = DmzBdevType.DMZ_TYPE_REGULAR then
          buildLoop dev devNrZones fuel (stepRegular dev bdev st)
        else if (reportZones bdev bdev_sector).isEmpty then (true, { st with ret := 0 })
        else
          match processBatch dev.zone_nr_sectors devNrZones bdev.capacity
              (dmz_blk2sect bdev.block_offset) (reportZones bdev bdev_sector)
              (stepReport bdev (reportZones bdev bdev_sector) st) with
          | (false, st2) => (false, st2)
          | (true, st2) => buildLoop dev devNrZones fuel st2
    else (true, st)

/-- The expected total zone count dmz_get_dev_zones computes on entry:
the sum of the per-backend zone counts (src/dmz_dev.c lines 360-362). -/
def dmzDevNrZones (dev : DmzDev) : Nat := (dev.bdev.map (fun b => b.nr_zones)).sum

/-- The final checks of dmz_get_dev_zones (src/dmz_dev.c lines 472-489),
reached only on a normal loop exit: the produced zone count must equal
the expected total and the cursor must equal the count times the uniform
zone size (the u64 product the C computes); either mismatch turns ret
into -1.  An early abort (first component false) skips both checks. -/
def finishChecks (dev : DmzDev) (devNrZones : Nat) : Bool × BuildState → BuildState
  | (false, st) => st
  | (true, st) =>
    if devNrZones ≠ st.nr_zones then { st with ret := -1 }
    else if st.sector ≠ u64mul st.nr_zones dev.zone_nr_sectors then { st with ret := -1 }
    else st

/-- The state on entry of the loop: cursor 0, no zones, ret -1 (the C
initialiser on line 358, only ever overwritten by an ioctl result). -/
def initState : BuildState :=
  { sector := 0, nr_zones := 0, zones := [], ret := -1, trace := [] }

/-- dmz_get_dev_zones (src/dmz_dev.c lines 351-495): compute the
expected zone count, run the while loop from the initial state, and
apply the final checks.  ret starts at -1 and is only ever set to 0 by
a successful report ioctl, so a build that issues no report returns
failure even when both final checks pass. -/
def dmz_get_dev_zones (dev : DmzDev) (fuel : Nat) : BuildState :=
  finishChecks dev (dmzDevNrZones dev) (buildLoop dev (dmzDevNrZones dev) fuel initState)

/-- The operations of dmz.h that dmz_open_bdev dispatches on; only
DMZ_OP_FORMAT triggers the overwrite check. -/
inductive DmzOp where
  | DMZ_OP_FORMAT
  | DMZ_OP_CHECK
  | DMZ_OP_REPAIR
  | DMZ_OP_RELABEL
deriving DecidableEq

/-- What libblkid would report for a device: a probing failure, nothing
found, a filesystem TYPE value, a partition-table PTTYPE value, or a
full probe hit with neither lookup succeeding. -/
inductive BlkidProbe where
  | probeError
  | nothingFound
  | foundType (t : String)
  | foundPTType (t : String)
  | foundOther
deriving DecidableEq

/-- dmz_check_overwrite (src/dmz_dev.c lines 516-574): -1 on probe
error, 0 when something valid is detected on the disk, 1 when the disk
appears unused. -/
def dmz_check_overwrite : BlkidProbe → Int
  | BlkidProbe.probeError => -1
  | BlkidProbe.nothingFound => 1
  | BlkidProbe.foundType _ => 0
  | BlkidProbe.foundPTType _ => 0
  | BlkidProbe.foundOther => 0

/-- True when the probe detected a filesystem or partition-table
signature. -/
def signatureFound : BlkidProbe → Bool
  | BlkidProbe.foundType _ => true
  | BlkidProbe.foundPTType _ => true
  | _ => false

/-- dmz_bdev_mounted (src/dmz_dev.c lines 79-95): when the mount table
cannot be opened the device is reported as not mounted; otherwise the
device is mounted exactly when some mnt_fsname entry is string-equal to
the device path. -/
def dmz_bdev_mounted (path : String) (mounts : Option (List String)) : Bool :=
  match mounts with
  | none => false
  | some tbl => tbl.any (fun m => m == path)

/-- The outside world as seen by dmz_open_bdev and dmz_get_bdev_holder:
the device path, the stat and S_ISBLK outcomes, the libblkid probe
outcome, the mnt_fsname column of the mount table (none when setmntent
fails), the dmz_bdev_busy result (-1 scandir failure, 0 free, 1 held,
with the holder name copied when held), and the outcomes of open and of
dmz_get_bdev_info. -/
structure BdevEnv where
  path : String
  statOk : Bool
  isBlk : Bool
  probe : BlkidProbe
  mounts : Option (List String)
  busy : Int
  holderName : String
  openOk : Bool
  infoOk : Bool
deriving DecidableEq

/-- dmz_open_bdev (src/dmz_dev.c lines 579-640): stat and block checks,
then for a format without the overwrite flag the content probe (a result
at or below 0 aborts), then the mounted check, the busy check (any
nonzero dmz_bdev_busy result, including the -1 scandir failure, aborts),
then open and dmz_get_bdev_info. -/
def dmz_open_bdev (env : BdevEnv) (op : DmzOp) (overwrite : Bool) : Int :=
  if env.statOk = false then -1
  else if env.isBlk = false then -1
  else if op = DmzOp.DMZ_OP_FORMAT ∧ overwrite = false ∧ dmz_check_overwrite env.probe ≤ 0 then -1
  else if dmz_bdev_mounted env.path env.mounts then -1
  else if env.busy ≠ 0 then -1
  else if env.openOk = false then -1
  else if env.infoOk = false then -1
  else 0

/-- Result of dmz_get_bdev_holder: the return code and the content of
the caller holder buffer (none when the code leaves it untouched). -/
structure HolderResult where
  ret : Int
  holder : Option String
deriving DecidableEq

/-- dmz_get_bdev_holder (src/dmz_dev.c lines 645-678): stat and block
checks, then the mounted check aborts with -1; otherwise the holder
buffer is zeroed when dmz_bdev_busy reports 0, filled with the holder
name when it reports 1, and left untouched on its -1 scandir failure,
and the function returns 0. -/
def dmz_get_bdev_holder (env : BdevEnv) : HolderResult :=
  if env.statOk = false then { ret := -1, holder := none }
  else if env.isBlk = false then { ret := -1, holder := none }
  else if dmz_bdev_mounted env.path env.mounts then { ret := -1, holder := none }
  else if env.busy = 0 then { ret := 0, holder := some "" }
  else if env.busy = 1 then { ret := 0, holder := some env.holderName }
  else { ret := 0, holder := none }

/-- A zoned host-managed backend of one 800-sector zone at offset 0. -/
def exBdevZ : DmzBlockDev :=
  { block_offset := 0, capacity := 800, type := DmzBdevType.DMZ_TYPE_ZONED_HM,
    nr_zones := 1,
    zones := [{ start := 0, len := 800, wp := 0, type := 2, cond := 1, capacity := 800 }] }

/-- Composite of exBdevZ alone: a build on it succeeds. -/
def exDevZ : DmzDev := { bdev := [exBdevZ], capacity := 800, zone_nr_sectors := 800 }

/-- A zoned host-managed backend of two 800-sector zones at offset 0. -/
def exBdevZ2 : DmzBlockDev :=
  { block_offset := 0, capacity := 1600, type := DmzBdevType.DMZ_TYPE_ZONED_HM,
    nr_zones := 2,
    zones := [{ start := 0, len := 800, wp := 0, type := 2, cond := 1, capacity := 800 },
              { start := 800, len := 800, wp := 800, type := 2, cond := 1, capacity := 800 }] }

/-- Composite of exBdevZ2 alone: a build on it succeeds. -/
def exDevZ2 : DmzDev := { bdev := [exBdevZ2], capacity := 1600, zone_nr_sectors := 800 }

/-- A regular backend of 800 sectors placed at block offset 100, that
is at sector offset 800 of the composite. -/
def exBdevR800 : DmzBlockDev :=
  { block_offset := 100, capacity := 800, type := DmzBdevType.DMZ_TYPE_REGULAR,
    nr_zones := 1, zones := [] }

/-- Composite of the zoned backend exBdevZ followed by the regular
backend exBdevR800 at sector offset 800: the build succeeds, yet the
emulated zone of the regular backend is truncated to length 0 because
the code compares its composite start sector 800 with the backend-local
capacity 800 (src/dmz_dev.c lines 394-395). -/
def exDev2 : DmzDev :=
  { bdev := [exBdevZ, exBdevR800], capacity := 1600, zone_nr_sectors := 800 }

/-- A zoned backend whose single zone declares capacity 1600 above its
length 800. -/
def exBdevC : DmzBlockDev :=
  { block_offset := 0, capacity := 800, type := DmzBdevType.DMZ_TYPE_ZONED_HM,
    nr_zones := 1,
    zones := [{ start := 0, len := 800, wp := 0, type := 2, cond := 1, capacity := 1600 }] }

/-- Composite of exBdevC alone: the build accepts the zone whose
declared capacity exceeds its length. -/
def exDevC : DmzDev := { bdev := [exBdevC], capacity := 800, zone_nr_sectors := 800 }

/-- The regular backend of the spec scenario: 1,000,000 sectors at
offset 0 with a configured zone size of 65,536 sectors, hence 16 zones
expected. -/
def exBdevR7 : DmzBlockDev :=
  { block_offset := 0, capacity := 1000000, type := DmzBdevType.DMZ_TYPE_REGULAR,
    nr_zones := 16, zones := [] }

/-- The spec scenario composite: one regular backend of 1,000,000
sectors with uniform zone size 65,536 sectors. -/
def exDev7 : DmzDev :=
  { bdev := [exBdevR7], capacity := 1000000, zone_nr_sectors := 65536 }

/-- A zoned backend of two 65,536-sector zones whose first, non-final
zone declares capacity 32,768, half its length. -/
def exBdev8 : DmzBlockDev :=
  { block_offset := 0, capacity := 131072, type := DmzBdevType.DMZ_TYPE_ZONED_HM,
    nr_zones := 2,
    zones := [{ start := 0, len := 65536, wp := 0, type := 2, cond := 1, capacity := 32768 },
              { start := 65536, len := 65536, wp := 65536, type := 2, cond := 1, capacity := 65536 }] }

/-- Composite of exBdev8 alone: the build is rejected at the
shrink-capacity zone. -/
def exDev8 : DmzDev := { bdev := [exBdev8], capacity := 131072, zone_nr_sectors := 65536 }

/-- The validation dmz_get_dev_zones applies to a reported zone
(src/dmz_dev.c lines 430-449), stated on a trace entry pairing the
reporting backend capacity with the raw zone: the zone length equals
the uniform zone size or the backend-local start plus the length (as
u64 values) equals the backend capacity, and the zone length is not
above its effective capacity. -/
def zoneGood (dev : DmzDev) (p : Nat × BlkZone) : Prop :=
  (dmz_zone_length p.2 = dev.zone_nr_sectors ∨
    u64add (dmz_zone_sector p.2) (dmz_zone_length p.2) = p.1) ∧
  dmz_zone_length p.2 ≤ dmz_zone_capacity p.2

instance (dev : DmzDev) (p : Nat × BlkZone) : Decidable (zoneGood dev p) := by
  unfold zoneGood
  exact inferInstance

/-- A composite whose single backend starts at block offset 10, so that
addresses below block 10 (sector 80) have no owner. -/
def exDevE : DmzDev :=
  { bdev := [{ block_offset := 10, capacity := 80,
               type := DmzBdevType.DMZ_TYPE_REGULAR, nr_zones := 10, zones := [] }],
    capacity := 160, zone_nr_sectors := 8 }

/-- Environment of a block device carrying an ext4 signature, not
mounted, not held, with working stat, open and info queries. -/
def envSigA : BdevEnv :=
  { path := "/dev/sda", statOk := true, isBlk := true,
    probe := BlkidProbe.foundType "ext4", mounts := some [], busy := 0,
    holderName := "", openOk := true, infoOk := true }

/-- Environment of a clean block device that is currently mounted. -/
def envMntB : BdevEnv :=
  { path := "/dev/sdb", statOk := true, isBlk := true,
    probe := BlkidProbe.nothingFound, mounts := some ["/dev/sdb"], busy := 0,
    holderName := "", openOk := true, infoOk := true }

/-- Environment of a block device on which the libblkid probe itself
fails. -/
def envErrC : BdevEnv :=
  { path := "/dev/sdc", statOk := true, isBlk := true,
    probe := BlkidProbe.probeError, mounts := some [], busy := 0,
    holderName := "", openOk := true, infoOk := true }

/-- Environment of a mounted block device that is also held, for the
holder query. -/
def envMounted : BdevEnv :=
  { path := "/dev/sdd", statOk := true, isBlk := true,
    probe := BlkidProbe.nothingFound, mounts := some ["/dev/sdd"], busy := 1,
    holderName := "dm-0", openOk := true, infoOk := true }

/-- Environment of a non-mounted block device held by dm-1. -/
def envFree : BdevEnv :=
  { path := "/dev/sde", statOk := true, isBlk := true,
    probe := BlkidProbe.nothingFound, mounts := some [], busy := 1,
    holderName := "dm-1", openOk := true, infoOk := true }

/-- Environment of a block device carrying an xfs signature on a system
where the mount table cannot be opened at all. -/
def envNoMnt : BdevEnv :=
  { path := "/dev/sdf", statOk := true, isBlk := true,
    probe := BlkidProbe.foundType "xfs", mounts := none, busy := 0,
    holderName := "", openOk := true, infoOk := true }

theorem ownerFrom_eq_none_iff (offs : DmzBlockDev → Nat) :
    ∀ (l : List DmzBlockDev) (addr : Nat),
      ownerFrom offs l addr = none ↔ ∀ b ∈ l, addr < offs b := by
  intro l
  induction l with
  | nil => intro addr; simp [ownerFrom]
  | cons b rest ih =>
    intro addr
    simp only [ownerFrom, List.mem_cons]
    by_cases h : offs b ≤ addr
    · simp only [if_pos h]
      constructor
      · intro hc; exact absurd hc (by simp)
      · intro hall
        have hb := hall b (Or.inl rfl)
        omega
    · simp only [if_neg h, ih addr]
      constructor
      · intro hall b' hb'
        rcases hb' with rfl | hb'
        · omega
        · exact hall b' hb'
      · intro hall b' hb'
        exact hall b' (Or.inr hb')

theorem processBatch_true (a d c s : Nat) (batch : List BlkZone) :
    ∀ st st' : BuildState, processBatch a d c s batch st = (true, st') →
      (∀ z ∈ batch,
        (dmz_zone_length z = a ∨ u64add (dmz_zone_sector z) (dmz_zone_length z) = c) ∧
        dmz_zone_length z ≤ dmz_zone_capacity z) ∧
      st'.trace = st.trace ∧ st'.ret = st.ret ∧
      st'.zones.length = st.zones.length + batch.length ∧
      st'.nr_zones = st.nr_zones + batch.length := by
  induction batch with
  | nil =>
    intro st st' h
    simp only [processBatch, Prod.mk.injEq] at h
    rcases h with ⟨-, rfl⟩
    simp
  | cons z rest ih =>
    intro st st' h
    simp only [processBatch] at h
    split_ifs at h with h1 h2 h3
    · simp at h
    · simp at h
    · simp at h
    · obtain ⟨hall, htr, hret, hlen, hnr⟩ := ih _ _ h
      have hz1 : dmz_zone_length z = a ∨ u64add (dmz_zone_sector z) (dmz_zone_length z) = c := by
        rcases not_and_or.mp h1 with hne | hne
        · exact Or.inl (not_not.mp hne)
        · exact Or.inr (not_not.mp hne)
      have hz2 : dmz_zone_length z ≤ dmz_zone_capacity z := Nat.le_of_not_lt h2
      refine ⟨?_, ?_, ?_, ?_, ?_⟩
      · intro z' hz'
        rcases List.mem_cons.mp hz' with rfl | hz'
        · exact ⟨hz1, hz2⟩
        · exact hall z' hz'
      · simpa using htr
      · simpa using hret
      · simp only [List.length_append, List.length_singleton] at hlen
        simp only [List.length_cons]
        omega
      · simp only [List.length_cons]
        simp only at hnr
        omega

theorem processBatch_false (a d c s : Nat) (batch : List BlkZone) :
    ∀ st st' : BuildState, processBatch a d c s batch st = (false, st') → st'.ret = -1 := by
  induction batch with
  | nil =>
    intro st st' h
    simp [processBatch] at h
  | cons z rest ih =>
    intro st st' h
    simp only [processBatch] at h
    split_ifs at h with h1 h2 h3
    · simp only [Prod.mk.injEq] at h
      rw [← h.2]
    · simp only [Prod.mk.injEq] at h
      rw [← h.2]
    · simp only [Prod.mk.injEq] at h
      rw [← h.2]
    · exact ih _ _ h

theorem buildLoop_invariant (dev : DmzDev) (dnz : Nat) :
    ∀ (fuel : Nat) (st st' : BuildState) (b : Bool),
      buildLoop dev dnz fuel st = (b, st') →
      (b = false → st'.ret ≠ 0) ∧
      (b = true →
        ((∀ p ∈ st.trace, zoneGood dev p) → ∀ p ∈ st'.trace, zoneGood dev p) ∧
        (st.zones.length = st.nr_zones → st'.zones.length = st'.nr_zones)) := by
  intro fuel
  induction fuel with
  | zero =>
    intro st st' b h
    simp only [buildLoop, Prod.mk.injEq] at h
    obtain ⟨rfl, rfl⟩ := h
    constructor
    · intro _
      simp
    · intro hb
      simp at hb
  | succ fuel ih =>
    intro st st' b h
    rw [buildLoop] at h
    by_cases hlt : st.sector < dev.capacity
    · rw [if_pos hlt] at h
      cases howner : ownerFrom (fun bb => dmz_blk2sect bb.block_offset) dev.bdev.reverse st.sector with
      | none =>
        rw [howner] at h
        simp only [Prod.mk.injEq] at h
        obtain ⟨rfl, rfl⟩ := h
        constructor
        · intro _
          simp
        · intro hb
          simp at hb
      | some pr =>
        obtain ⟨bd, bsec⟩ := pr
        rw [howner] at h
        dsimp only at h
        by_cases hreg : bd.type = DmzBdevType.DMZ_TYPE_REGULAR
        · rw [if_pos hreg] at h
          have H := ih (stepRegular dev bd st) st' b h
          refine ⟨H.1, fun hb => ?_⟩
          obtain ⟨htr, hlen⟩ := H.2 hb
          constructor
          · intro hgood
            apply htr
            simpa [stepRegular] using hgood
          · intro heq
            apply hlen
            simp [stepRegular, heq]
        · rw [if_neg hreg] at h
          by_cases hemp : (reportZones bd bsec).isEmpty
          · rw [if_pos hemp] at h
            simp only [Prod.mk.injEq] at h
            obtain ⟨rfl, rfl⟩ := h
            constructor
            · intro hb
              simp at hb
            · intro _
              exact ⟨fun hg => hg, fun he => he⟩
          · rw [if_neg hemp] at h
            cases hpb : processBatch dev.zone_nr_sectors dnz bd.capacity
                (dmz_blk2sect bd.block_offset) (reportZones bd bsec)
                (stepReport bd (reportZones bd bsec) st) with
            | mk b2 st2 =>
              rw [hpb] at h
              cases b2
              · dsimp only at h
                simp only [Prod.mk.injEq] at h
                obtain ⟨rfl, rfl⟩ := h
                constructor
                · intro _
                  have hr := processBatch_false _ _ _ _ _ _ _ hpb
                  rw [hr]
                  decide
                · intro hb
                  simp at hb
              · dsimp only at h
                obtain ⟨hall, htr2, hret2, hlen2, hnr2⟩ := processBatch_true _ _ _ _ _ _ _ hpb
                have H := ih st2 st' b h
                refine ⟨H.1, fun hb => ?_⟩
                obtain ⟨htr, hlen⟩ := H.2 hb
                constructor
                · intro hgood
                  apply htr
                  rw [htr2]
                  simp only [stepReport]
                  intro p hp
                  rcases List.mem_append.mp hp with hp | hp
                  · exact hgood p hp
                  · obtain ⟨z, hz, rfl⟩ := List.mem_map.mp hp
                    exact ⟨(hall z hz).1, (hall z hz).2⟩
                · intro heq
                  apply hlen
                  rw [hlen2, hnr2]
                  simp only [stepReport]
                  omega
    · rw [if_neg hlt] at h
      simp only [Prod.mk.injEq] at h
      obtain ⟨rfl, rfl⟩ := h
      exact ⟨fun hb => by simp at hb, fun _ => ⟨fun hg => hg, fun he => he⟩⟩

theorem dmz_get_dev_zones_ret_zero (dev : DmzDev) (fuel : Nat)
    (h : (dmz_get_dev_zones dev fuel).ret = 0) :
    (∀ p ∈ (dmz_get_dev_zones dev fuel).trace, zoneGood dev p) ∧
    (dmz_get_dev_zones dev fuel).nr_zones = dmzDevNrZones dev ∧
    (dmz_get_dev_zones dev fuel).sector =
      u64mul (dmz_get_dev_zones dev fuel).nr_zones dev.zone_nr_sectors ∧
    (dmz_get_dev_zones dev fuel).zones.length = (dmz_get_dev_zones dev fuel).nr_zones := by
  unfold dmz_get_dev_zones at h ⊢
  cases hb : buildLoop dev (dmzDevNrZones dev) fuel initState with
  | mk b st =>
    rw [hb] at h
    have HI := buildLoop_invariant dev (dmzDevNrZones dev) fuel initState st b hb
    cases b
    · dsimp only [finishChecks] at h
      exact absurd h (HI.1 rfl)
    · obtain ⟨htr, hlen⟩ := HI.2 rfl
      dsimp only [finishChecks] at h ⊢
      by_cases h1 : dmzDevNrZones dev ≠ st.nr_zones
      · rw [if_pos h1] at h
        simp at h
      · rw [if_neg h1] at h ⊢
        by_cases h2 : st.sector ≠ u64mul st.nr_zones dev.zone_nr_sectors
        · rw [if_pos h2] at h
          simp at h
        · rw [if_neg h2] at h ⊢
          refine ⟨htr ?_, (not_ne_iff.mp h1).symm, not_ne_iff.mp h2, hlen ?_⟩
          · intro p hp
            simp [initState] at hp
          · simp [initState]

/-- Claim C1, counterexample: in the composite exDev1 of total capacity
80 sectors (10 blocks), block address 100 and sector address 800 both
lie beyond the total capacity, yet dmz_block_to_bdev and
dmz_sector_to_bdev resolve them to the sole backend with the address
itself as local address, instead of returning the no-owner sentinel the
claim requires. -/
theorem C1_counterexample :
    exDev1.capacity = 80 ∧ 10 * dmzBlockSectors = 80 ∧
    dmz_block_to_bdev exDev1 100 = (some exBdevR1, 100) ∧
    dmz_sector_to_bdev exDev1 800 = (some exBdevR1, 800) := by
  decide

/-- Claim C1, amended: the translators return the no-owner sentinel
(null backend, all-ones local address) exactly when the queried address
is strictly below the offset of every backend; no capacity bound is
enforced, so in a composite whose first backend sits at offset 0 every
address, in range or not, resolves to some backend. -/
theorem C1_translator_no_owner_iff (dev : DmzDev) (addr : Nat) :
    ((dmz_block_to_bdev dev addr).1 = none ↔ ∀ b ∈ dev.bdev, addr < b.block_offset) ∧
    ((dmz_block_to_bdev dev addr).1 = none → (dmz_block_to_bdev dev addr).2 = U64 - 1) ∧
    ((dmz_sector_to_bdev dev addr).1 = none ↔
      ∀ b ∈ dev.bdev, addr < dmz_blk2sect b.block_offset) ∧
    ((dmz_sector_to_bdev dev addr).1 = none → (dmz_sector_to_bdev dev addr).2 = U64 - 1) := by
  have hb := ownerFrom_eq_none_iff (fun b => b.block_offset) dev.bdev.reverse addr
  have hs := ownerFrom_eq_none_iff (fun b => dmz_blk2sect b.block_offset) dev.bdev.reverse addr
  simp only [List.mem_reverse] at hb hs
  have HB : ((dmz_block_to_bdev dev addr).1 = none ↔ ∀ b ∈ dev.bdev, addr < b.block_offset) ∧
      ((dmz_block_to_bdev dev addr).1 = none → (dmz_block_to_bdev dev addr).2 = U64 - 1) := by
    unfold dmz_block_to_bdev
    cases h : ownerFrom (fun b => b.block_offset) dev.bdev.reverse addr with
    | none =>
      refine ⟨⟨fun _ => hb.mp h, fun _ => rfl⟩, fun _ => rfl⟩
    | some pr =>
      obtain ⟨b0, r0⟩ := pr
      rw [h] at hb
      simp only [reduceCtorEq, false_iff] at hb
      refine ⟨⟨fun hnone => ?_, fun hall => absurd hall hb⟩, fun hnone => ?_⟩
      · simp at hnone
      · simp at hnone
  have HS : ((dmz_sector_to_bdev dev addr).1 = none ↔
        ∀ b ∈ dev.bdev, addr < dmz_blk2sect b.block_offset) ∧
      ((dmz_sector_to_bdev dev addr).1 = none → (dmz_sector_to_bdev dev addr).2 = U64 - 1) := by
    unfold dmz_sector_to_bdev
    cases h : ownerFrom (fun b => dmz_blk2sect b.block_offset) dev.bdev.reverse addr with
    | none =>
      refine ⟨⟨fun _ => hs.mp h, fun _ => rfl⟩, fun _ => rfl⟩
    | some pr =>
      obtain ⟨b0, r0⟩ := pr
      rw [h] at hs
      simp only [reduceCtorEq, false_iff] at hs
      refine ⟨⟨fun hnone => ?_, fun hall => absurd hall hs⟩, fun hnone => ?_⟩
      · simp at hnone
      · simp at hnone
  exact ⟨HB.1, HB.2, HS.1, HS.2⟩

/-- Claim C1, witness: the amended characterisation applied to the
composite exDevE whose sole backend starts at block offset 10; block
address 5 lies below every backend offset and gets the sentinel. -/
theorem C1_witness : (dmz_block_to_bdev exDevE 5).1 = none :=
  (C1_translator_no_owner_iff exDevE 5).1.mpr (by decide)

/-- Claim C2, counterexample: the build on exDevC succeeds (ret 0) and
its accepted zone table consists of one zone of length 800 declaring
capacity 1600, which violates capacity at most length. -/
theorem C2_counterexample :
    (dmz_get_dev_zones exDevC 10).ret = 0 ∧
    (dmz_get_dev_zones exDevC 10).zones.map (fun z => (z.capacity, z.len)) = [(1600, 800)] ∧
    ¬(1600 ≤ 800) := by
  decide

/-- Claim C2, amended: the builder rejects a reported zone whose
effective capacity (dmz_zone_capacity, a declared 0 standing for the
length) is strictly smaller than its length, so on a successful build
every zone received from a report satisfies length at most effective
capacity; the converse bound of the claim, capacity at most length, is
not enforced. -/
theorem C2_accepted_zone_capacity (dev : DmzDev) (fuel : Nat)
    (h : (dmz_get_dev_zones dev fuel).ret = 0) :
    ∀ p ∈ (dmz_get_dev_zones dev fuel).trace,
      dmz_zone_length p.2 ≤ dmz_zone_capacity p.2 := by
  intro p hp
  exact ((dmz_get_dev_zones_ret_zero dev fuel h).1 p hp).2

/-- Claim C2, witness: the amended bound checked on the successful build
over the two-zone backend exBdevZ2. -/
theorem C2_witness :
    (dmz_get_dev_zones exDevZ2 10).ret = 0 ∧
    (∀ p ∈ (dmz_get_dev_zones exDevZ2 10).trace,
      dmz_zone_length p.2 ≤ dmz_zone_capacity p.2) :=
  ⟨by decide, C2_accepted_zone_capacity exDevZ2 10 (by decide)⟩

/-- Claim C3, counterexample: the build on exDev2 succeeds (ret 0) with
final cursor 1600, while the last zone of the table ends at sector
800 + 0 = 800: the code does not verify that the final cursor equals
the end of the last zone. -/
theorem C3_counterexample :
    (dmz_get_dev_zones exDev2 10).ret = 0 ∧
    (dmz_get_dev_zones exDev2 10).zones.getLast? =
      some { start := 800, len := 0, wp := U64 - 1, type := 0, cond := 0, capacity := 0 } ∧
    (dmz_get_dev_zones exDev2 10).sector = 1600 ∧ 800 + 0 ≠ 1600 := by
  decide

/-- Claim C3, amended: after consuming all backends the builder fails
unless the number of zones produced equals the expected total zone
count and the final cursor equals that count times the uniform zone
size (as u64 values); the cursor is not compared with the end of the
last zone. -/
theorem C3_final_checks (dev : DmzDev) (fuel : Nat)
    (h : (dmz_get_dev_zones dev fuel).ret = 0) :
    (dmz_get_dev_zones dev fuel).nr_zones = dmzDevNrZones dev ∧
    (dmz_get_dev_zones dev fuel).sector =
      u64mul (dmz_get_dev_zones dev fuel).nr_zones dev.zone_nr_sectors :=
  ⟨(dmz_get_dev_zones_ret_zero dev fuel h).2.1,
   (dmz_get_dev_zones_ret_zero dev fuel h).2.2.1⟩

/-- Claim C3, witness: the amended final checks hold on the successful
build over exDev2. -/
theorem C3_witness :
    (dmz_get_dev_zones exDev2 10).ret = 0 ∧
    (dmz_get_dev_zones exDev2 10).nr_zones = dmzDevNrZones exDev2 ∧
    (dmz_get_dev_zones exDev2 10).sector =
      u64mul (dmz_get_dev_zones exDev2 10).nr_zones exDev2.zone_nr_sectors :=
  ⟨by decide, C3_final_checks exDev2 10 (by decide)⟩

/-- Claim C4, counterexample: the build on exDev2 (zoned backend of 800
sectors followed by a regular backend of 800 sectors at sector offset
800) succeeds, yet its zone lengths sum to 800 while the composite
capacity is 1600: the emulated zone of the regular backend was
truncated to length 0 by the comparison of its composite start with
the backend-local capacity. -/
theorem C4_counterexample :
    (dmz_get_dev_zones exDev2 10).ret = 0 ∧
    ((dmz_get_dev_zones exDev2 10).zones.map (fun z => z.len)).sum = 800 ∧
    exDev2.capacity = 1600 ∧ (800 : Nat) ≠ 1600 := by
  decide

/-- Claim C4, amended: for every successfully returned zone array the
number of zones equals the composite total zone count, the sum of the
per-backend zone counts; the sum of the zone lengths is not checked
against the composite capacity and can differ from it when a regular
backend sits at a nonzero offset. -/
theorem C4_zone_count (dev : DmzDev) (fuel : Nat)
    (h : (dmz_get_dev_zones dev fuel).ret = 0) :
    (dmz_get_dev_zones dev fuel).zones.length =
      (dev.bdev.map (fun b => b.nr_zones)).sum := by
  have H := dmz_get_dev_zones_ret_zero dev fuel h
  rw [H.2.2.2, H.2.1]
  rfl

/-- Claim C4, witness: the amended count equality on the successful
build over exDevC. -/
theorem C4_witness :
    (dmz_get_dev_zones exDevC 10).ret = 0 ∧
    (dmz_get_dev_zones exDevC 10).zones.length =
      (exDevC.bdev.map (fun b => b.nr_zones)).sum :=
  ⟨by decide, C4_zone_count exDevC 10 (by decide)⟩

/-- Claim C5: on a successful build, every zone received from a zone
report satisfies the acceptance condition of src/dmz_dev.c lines
430-439: its length equals the uniform zone size, or its backend-local
start plus its length (as u64 values) equals the capacity of the
backend that reported it.  Contrapositively, a received zone satisfying
neither condition makes the whole build fail. -/
theorem C5_report_zone_size (dev : DmzDev) (fuel : Nat)
    (h : (dmz_get_dev_zones dev fuel).ret = 0) :
    ∀ p ∈ (dmz_get_dev_zones dev fuel).trace,
      dmz_zone_length p.2 = dev.zone_nr_sectors ∨
      u64add (dmz_zone_sector p.2) (dmz_zone_length p.2) = p.1 := by
  intro p hp
  exact ((dmz_get_dev_zones_ret_zero dev fuel h).1 p hp).1

/-- Claim C5, witness: the acceptance condition checked on the
successful build over exDevZ. -/
theorem C5_witness :
    (dmz_get_dev_zones exDevZ 10).ret = 0 ∧
    (∀ p ∈ (dmz_get_dev_zones exDevZ 10).trace,
      dmz_zone_length p.2 = exDevZ.zone_nr_sectors ∨
      u64add (dmz_zone_sector p.2) (dmz_zone_length p.2) = p.1) :=
  ⟨by decide, C5_report_zone_size exDevZ 10 (by decide)⟩

theorem check_overwrite_nonpos_of_signature (p : BlkidProbe)
    (h : signatureFound p = true) : dmz_check_overwrite p ≤ 0 := by
  cases p <;> simp [signatureFound] at h <;> simp [dmz_check_overwrite]

/-- Claim C6: dmz_open_bdev rejects a format on a device carrying a
filesystem or partition-table signature when the overwrite flag is not
set, accepts the format when the flag is set (the other gates passing),
rejects a mounted device for every operation and flag value, and also
rejects a format without the flag when the probe itself fails. -/
theorem C6_safety_guard (env : BdevEnv) :
    (env.statOk = true → env.isBlk = true → signatureFound env.probe = true →
      dmz_open_bdev env DmzOp.DMZ_OP_FORMAT false = -1) ∧
    (env.statOk = true → env.isBlk = true →
      dmz_bdev_mounted env.path env.mounts = false → env.busy = 0 →
      env.openOk = true → env.infoOk = true →
      dmz_open_bdev env DmzOp.DMZ_OP_FORMAT true = 0) ∧
    (∀ (op : DmzOp) (overwrite : Bool), env.statOk = true → env.isBlk = true →
      dmz_bdev_mounted env.path env.mounts = true →
      dmz_open_bdev env op overwrite = -1) ∧
    (env.statOk = true → env.isBlk = true → env.probe = BlkidProbe.probeError →
      dmz_open_bdev env DmzOp.DMZ_OP_FORMAT false = -1) := by
  refine ⟨?_, ?_, ?_, ?_⟩
  · intro h1 h2 h3
    have hle := check_overwrite_nonpos_of_signature env.probe h3
    simp [dmz_open_bdev, h1, h2, hle]
  · intro h1 h2 h3 h4 h5 h6
    simp [dmz_open_bdev, h1, h2, h3, h4, h5, h6]
  · intro op overwrite h1 h2 h3
    simp [dmz_open_bdev, h1, h2, h3]
  · intro h1 h2 h3
    simp [dmz_open_bdev, h1, h2, h3, dmz_check_overwrite]

/-- Claim C6, witness: the guard evaluated on concrete environments: an
ext4-carrying device is rejected for format without the flag and
accepted with it, a mounted device is rejected for a check operation,
and a device whose probe fails is rejected for format without the
flag. -/
theorem C6_witness :
    dmz_open_bdev envSigA DmzOp.DMZ_OP_FORMAT false = -1 ∧
    dmz_open_bdev envSigA DmzOp.DMZ_OP_FORMAT true = 0 ∧
    dmz_open_bdev envMntB DmzOp.DMZ_OP_CHECK false = -1 ∧
    dmz_open_bdev envErrC DmzOp.DMZ_OP_FORMAT false = -1 :=
  ⟨(C6_safety_guard envSigA).1 rfl rfl rfl,
   (C6_safety_guard envSigA).2.1 rfl rfl (by decide) rfl rfl rfl,
   (C6_safety_guard envMntB).2.2.1 DmzOp.DMZ_OP_CHECK false rfl rfl (by decide),
   (C6_safety_guard envErrC).2.2.2 rfl rfl rfl⟩

/-- Claim C7, counterexample: on the spec scenario composite exDev7
(regular backend of 1,000,000 sectors, zone size 65,536) the builder
writes 16 zones whose last has length 16,960 = 1,000,000 - 15 x 65,536,
not the 33,280 the claim states. -/
theorem C7_counterexample :
    ((dmz_get_dev_zones exDev7 32).zones.map (fun z => z.len)).getLast? = some 16960 ∧
    ((dmz_get_dev_zones exDev7 32).zones.map (fun z => z.len)).getLast? ≠ some 33280 ∧
    (dmz_get_dev_zones exDev7 32).zones.length = 16 := by
  decide

/-- Claim C7, amended: on exDev7 the builder synthesizes exactly 16
zones, the first 15 of length 65,536 sectors and the last truncated to
16,960 sectors; the call nevertheless reports failure, because for an
all-regular composite no zone-report ioctl ever runs and ret keeps its
initial -1 even though both final checks pass. -/
theorem C7_regular_scenario :
    (dmz_get_dev_zones exDev7 32).zones.map (fun z => z.len) =
      List.replicate 15 65536 ++ [16960] ∧
    (dmz_get_dev_zones exDev7 32).nr_zones = 16 ∧
    (dmz_get_dev_zones exDev7 32).ret = -1 := by
  decide

/-- Claim C8: a zone received from a zone-report query whose effective
capacity (dmz_zone_capacity, a declared 0 standing for the length) is
strictly smaller than its length makes the whole build fail, as in
src/dmz_dev.c lines 441-449. -/
theorem C8_shrink_capacity_rejected (dev : DmzDev) (fuel : Nat)
    (h : ∃ p ∈ (dmz_get_dev_zones dev fuel).trace,
      dmz_zone_capacity p.2 < dmz_zone_length p.2) :
    (dmz_get_dev_zones dev fuel).ret ≠ 0 := by
  intro hret
  obtain ⟨p, hp, hlt⟩ := h
  have hle := ((dmz_get_dev_zones_ret_zero dev fuel hret).1 p hp).2
  omega

/-- Claim C8, witness: the rejection on the spec scenario backend
exBdev8, whose non-final zone of length 65,536 declares capacity
32,768. -/
theorem C8_witness :
    (∃ p ∈ (dmz_get_dev_zones exDev8 10).trace,
      dmz_zone_capacity p.2 < dmz_zone_length p.2) ∧
    (dmz_get_dev_zones exDev8 10).ret ≠ 0 :=
  ⟨by decide, C8_shrink_capacity_rejected exDev8 10 (by decide)⟩

/-- Claim C9, counterexample: on the mounted block device envMounted
the holder query dmz_get_bdev_holder fails with -1 and leaves the
holder buffer untouched, so the query is gated by the mounted state,
contrary to the claim. -/
theorem C9_counterexample :
    envMounted.statOk = true ∧ envMounted.isBlk = true ∧
    (dmz_get_bdev_holder envMounted).ret = -1 ∧
    (dmz_get_bdev_holder envMounted).holder = none := by
  decide

/-- Claim C9, amended: dmz_get_bdev_holder fails on a stat failure, on
a non-block device and, unconditionally, on a mounted device (the same
mounted gate as the destructive path); on a non-mounted block device it
returns 0, zeroing the holder buffer when there is no holder and
filling it with the holder name when there is one. -/
theorem C9_holder_query (env : BdevEnv)
    (h1 : env.statOk = true) (h2 : env.isBlk = true)
    (h3 : dmz_bdev_mounted env.path env.mounts = false) :
    (dmz_get_bdev_holder env).ret = 0 ∧
    (env.busy = 0 → (dmz_get_bdev_holder env).holder = some "") ∧
    (env.busy = 1 → (dmz_get_bdev_holder env).holder = some env.holderName) := by
  refine ⟨?_, ?_, ?_⟩
  · unfold dmz_get_bdev_holder
    simp only [h1, h2, h3]
    split_ifs <;> simp_all
  · intro hb
    simp [dmz_get_bdev_holder, h1, h2, h3, hb]
  · intro hb
    simp [dmz_get_bdev_holder, h1, h2, h3, hb]

/-- Claim C9, witness: the amended behaviour on the non-mounted held
device envFree: the query succeeds and surfaces the holder dm-1. -/
theorem C9_witness :
    (dmz_get_bdev_holder envFree).ret = 0 ∧
    (dmz_get_bdev_holder envFree).holder = some "dm-1" := by
  have H := C9_holder_query envFree rfl rfl (by decide)
  exact ⟨H.1, H.2.2 rfl⟩

/-- Claim C10: when the mount table cannot be opened dmz_bdev_mounted
reports not mounted, so dmz_open_bdev passes its mounted gate silently;
and with a readable table the device counts as mounted exactly when
some mnt_fsname entry is string-equal to the device path. -/
theorem C10_mount_table (path : String) :
    (dmz_bdev_mounted path none = false) ∧
    (∀ tbl : List String, dmz_bdev_mounted path (some tbl) = true ↔ path ∈ tbl) ∧
    (∀ env : BdevEnv, env.mounts = none → env.statOk = true →
      env.isBlk = true → env.busy = 0 → env.openOk = true → env.infoOk = true →
      ∀ overwrite : Bool, dmz_open_bdev env DmzOp.DMZ_OP_CHECK overwrite = 0) := by
  refine ⟨rfl, ?_, ?_⟩
  · intro tbl
    simp only [dmz_bdev_mounted, List.any_eq_true, beq_iff_eq]
    constructor
    · rintro ⟨m, hm, rfl⟩
      exact hm
    · intro h
      exact ⟨path, h, rfl⟩
  · intro env hm h1 h2 h3 h4 h5 overwrite
    simp [dmz_open_bdev, dmz_bdev_mounted, hm, h1, h2, h3, h4, h5]

/-- Claim C10, witness: the mount-table behaviour at concrete values,
with the open of the signature-carrying envNoMnt succeeding for a check
operation because its mount table is unreadable. -/
theorem C10_witness :
    dmz_bdev_mounted "/dev/sdf" none = false ∧
    (dmz_bdev_mounted "/dev/sdf" (some ["/dev/sdf"]) = true ↔ "/dev/sdf" ∈ ["/dev/sdf"]) ∧
    dmz_open_bdev envNoMnt DmzOp.DMZ_OP_CHECK false = 0 :=
  ⟨(C10_mount_table "/dev/sdf").1,
   (C10_mount_table "/dev/sdf").2.1 ["/dev/sdf"],
   (C10_mount_table "/dev/sdf").2.2 envNoMnt rfl rfl rfl rfl rfl rfl false⟩
